import Mathlib

/-!
Shallow embedding of the stock-analysis agent (src/agent.py and
src/advanced_recommender.py) and proofs about it.

Python strings are embedded as `List Char` (`PyStr`); Python floats are
embedded as exact rationals, with `Option ℚ` (`none` = NaN) where pandas
produces NaN, and with the extended type `PVal` where IEEE division by
zero can produce infinities or NaN.  Calls to the external providers
(yfinance, the Tavily search API, the Gemini language model) are modelled
by an explicit environment `Env` holding each call's outcome: `Except e a`
with `Except.error` for a raised exception.  A Python exception escaping
`MarketAgent.analyze` is modelled by `analyze` returning `Except.error`.
-/

set_option maxRecDepth 8000

deriving instance DecidableEq for Except

/-- Python strings, embedded as their character sequences. -/
abbrev PyStr := List Char

/-- The newline character on which the agent splits model replies. -/
def lfChar : Char := '\n'

/-- Python `str.split(sep)` for a one-character separator `c`: the maximal
runs between occurrences of `c`, empty runs kept, as in
`"a::b".split(":") == ["a", "", "b"]`. -/
def splitOnChar (c : Char) : PyStr → List PyStr
  | [] => [[]]
  | x :: xs =>
    if x = c then [] :: splitOnChar c xs
    else
      match splitOnChar c xs with
      | [] => [[x]]
      | r :: rs => (x :: r) :: rs

/-- The whitespace characters Python `str.strip()` removes (the ASCII ones;
the agent only ever strips ASCII model text). -/
def pyIsSpace (c : Char) : Bool :=
  c = ' ' || c = '\t' || c = '\n' || c = '\r' || c = '\x0b' || c = '\x0c'

/-- Python `str.strip()`: leading and trailing whitespace removed. -/
def pyStrip (s : PyStr) : PyStr :=
  ((s.dropWhile pyIsSpace).reverse.dropWhile pyIsSpace).reverse

/-- Python `str.lower()` (ASCII case folding, which is all the agent needs). -/
def pyLower (s : PyStr) : PyStr :=
  s.map Char.toLower

/-- Python `s.startswith(pre)`. -/
def pyStartsWith : PyStr → PyStr → Bool
  | _, [] => true
  | [], _ :: _ => false
  | c :: s, p :: pre => c == p && pyStartsWith s pre

/-- Python `pat in s`: `pat` occurs as a contiguous substring of `s`. -/
def containsSub (pat : PyStr) : PyStr → Bool
  | [] => pat.isEmpty
  | c :: rest => (pat.isPrefixOf (c :: rest) : Bool) || containsSub pat rest

/-- Python `lst[-1]` on the non-empty lists `str.split` returns (the default
is never used: `split` always returns at least one piece). -/
def lastD (l : List PyStr) : PyStr :=
  l.getLastD []

/-- Price targets as `_extract_price_targets` returns them: the dictionary
`{"conservative": ..., "aggressive": ...}` with `None` for a missing value. -/
structure Targets where
  conservative : Option PyStr
  aggressive : Option PyStr
deriving DecidableEq, Repr

/-- Loop of `MarketAgent._extract_recommendation` over the lines of the
reply: the first line containing `"recommendation:"` (after lowering)
yields the text after the last colon, stripped; otherwise `"Hold"`. -/
def extractRecommendationGo : List PyStr → PyStr
  | [] => "Hold".data
  | line :: rest =>
    if containsSub "recommendation:".data (pyLower line) then
      pyStrip (lastD (splitOnChar ':' line))
    else extractRecommendationGo rest

/-- `MarketAgent._extract_recommendation`. -/
def extractRecommendation (text : PyStr) : PyStr :=
  extractRecommendationGo (splitOnChar lfChar text)

/-- Loop of `MarketAgent._extract_bullet_points`: state is the remaining
lines, the `in_reasons` flag and the points accumulated so far; a line
containing `"reasons:"` sets the flag and is skipped (`continue`), a
dash-prefixed stripped line is appended with its first two characters
removed, and the loop breaks as soon as three points are held. -/
def extractBulletPointsGo : List PyStr → Bool → List PyStr → List PyStr
  | [], _, points => points
  | line :: rest, inReasons, points =>
    if containsSub "reasons:".data (pyLower line) then
      extractBulletPointsGo rest true points
    else
      let points' :=
        if inReasons && pyStartsWith (pyStrip line) "-".data then
          points ++ [(pyStrip line).drop 2]
        else points
      if 3 ≤ points'.length then points'
      else extractBulletPointsGo rest inReasons points'

/-- `MarketAgent._extract_bullet_points`. -/
def extractBulletPoints (text : PyStr) : List PyStr :=
  extractBulletPointsGo (splitOnChar lfChar text) false []

/-- Loop of `MarketAgent._extract_price_targets`: a line containing
`"conservative:"` (after lowering) sets the conservative target to the text
after the last dollar sign, stripped; otherwise a line containing
`"aggressive:"` sets the aggressive target likewise. -/
def extractPriceTargetsGo : List PyStr → Targets → Targets
  | [], t => t
  | line :: rest, t =>
    if containsSub "conservative:".data (pyLower line) then
      extractPriceTargetsGo rest
        { t with conservative := some (pyStrip (lastD (splitOnChar '$' line))) }
    else if containsSub "aggressive:".data (pyLower line) then
      extractPriceTargetsGo rest
        { t with aggressive := some (pyStrip (lastD (splitOnChar '$' line))) }
    else extractPriceTargetsGo rest t

/-- `MarketAgent._extract_price_targets`. -/
def extractPriceTargets (text : PyStr) : Targets :=
  extractPriceTargetsGo (splitOnChar lfChar text) ⟨none, none⟩

/-! ## The indicator layer (src/advanced_recommender.py)

Closing prices are embedded as exact rationals.  A pandas rolling mean is
NaN until its window is full; those NaNs are embedded as `none`.  The RSI
computation divides two rolling means, so it can produce IEEE infinities
and NaN; `PVal` carries exactly those extended values. -/

/-- Pandas `series.rolling(w).mean().iloc[-1]` on a non-empty series: the
mean of the last `w` entries when the series has at least `w` of them,
and NaN (`none`) otherwise (`min_periods` defaults to the window size).
On an empty series `.iloc[-1]` would raise IndexError instead; every use
below is guarded by a non-emptiness check (`hist.empty` in
`_get_stock_data`, the `delta.isEmpty` test in `computeRsi`), and
theorems about shorter-than-window behaviour assume the series
non-empty. -/
def rollingMeanLast (l : List ℚ) (w : Nat) : Option ℚ :=
  if w ≤ l.length ∧ 1 ≤ w then some ((l.drop (l.length - w)).sum / (w : ℚ))
  else none

/-- Pandas `series.rolling(w).mean().tolist()`: position `i` holds the mean
of entries `i - w + 1 .. i` once the window is full, NaN (`none`) before. -/
def rollingMeans (w : Nat) (l : List ℚ) : List (Option ℚ) :=
  (List.range l.length).map fun i =>
    if w ≤ i + 1 ∧ 1 ≤ w then some ((((l.take (i + 1)).drop (i + 1 - w)).sum) / (w : ℚ))
    else none

/-- Pandas `series.diff().dropna()`: consecutive differences, the
undefined first entry dropped. -/
def diffs (l : List ℚ) : List ℚ :=
  List.zipWith (fun a b => a - b) (l.drop 1) l

/-- The clipped gain series `delta.clip(lower=0)` of `_compute_rsi`. -/
def upSeries (s : List ℚ) : List ℚ :=
  (diffs s).map fun d => max d 0

/-- The clipped loss series `-delta.clip(upper=0)` of `_compute_rsi`. -/
def downSeries (s : List ℚ) : List ℚ :=
  (diffs s).map fun d => -(min d 0)

/-- An IEEE double as far as `_compute_rsi` can observe one: an exact
finite value, one of the two infinities, or NaN.  (Signed zero is not
modelled; where pandas would produce `rs = -inf` from a `-0.0` average
loss, this model produces `inf`, and `100 - 100/(1 + rs)` is `100` either
way, which is the only value the code keeps.) -/
inductive PVal where
  | fin : ℚ → PVal
  | inf : PVal
  | ninf : PVal
  | nan : PVal
deriving DecidableEq, Repr

/-- IEEE addition on `PVal`. -/
def PVal.add : PVal → PVal → PVal
  | nan, _ => nan
  | _, nan => nan
  | fin a, fin b => fin (a + b)
  | fin _, inf => inf
  | inf, fin _ => inf
  | fin _, ninf => ninf
  | ninf, fin _ => ninf
  | inf, inf => inf
  | ninf, ninf => ninf
  | inf, ninf => nan
  | ninf, inf => nan

/-- IEEE subtraction on `PVal`. -/
def PVal.sub : PVal → PVal → PVal
  | nan, _ => nan
  | _, nan => nan
  | fin a, fin b => fin (a - b)
  | fin _, inf => ninf
  | fin _, ninf => inf
  | inf, fin _ => inf
  | ninf, fin _ => ninf
  | inf, inf => nan
  | ninf, ninf => nan
  | inf, ninf => inf
  | ninf, inf => ninf

/-- IEEE division on `PVal` (an unsigned zero: `x / 0` is `inf` for
positive `x`, `ninf` for negative `x`, and NaN for `x = 0`). -/
def PVal.div : PVal → PVal → PVal
  | nan, _ => nan
  | _, nan => nan
  | fin a, fin b =>
    if b = 0 then (if a = 0 then nan else if 0 < a then inf else ninf)
    else fin (a / b)
  | fin _, inf => fin 0
  | fin _, ninf => fin 0
  | inf, fin b => if b < 0 then ninf else inf
  | ninf, fin b => if b < 0 then inf else ninf
  | inf, inf => nan
  | inf, ninf => nan
  | ninf, inf => nan
  | ninf, ninf => nan

/-- A rolling-mean entry as the IEEE value `_compute_rsi` reads: NaN when
the window was not full. -/
def toPVal : Option ℚ → PVal
  | some q => PVal.fin q
  | none => PVal.nan

/-- The last entry of `ma_up` in `_compute_rsi`: the trailing average
gain. -/
def maUpLast (series : List ℚ) (period : Nat) : Option ℚ :=
  rollingMeanLast (upSeries series) period

/-- The last entry of `ma_down` in `_compute_rsi`: the trailing average
loss. -/
def maDownLast (series : List ℚ) (period : Nat) : Option ℚ :=
  rollingMeanLast (downSeries series) period

/-- `_compute_rsi(series, period)` of src/advanced_recommender.py.
`series.diff().dropna()` is empty exactly when the series has at most one
point; `.iloc[-1]` then raises IndexError, modelled as `Except.error`.
Otherwise `rs = ma_up / ma_down` and `100 - (100 / (1 + rs))` are computed
in IEEE arithmetic on the last rolling-mean entries. -/
def computeRsi (series : List ℚ) (period : Nat) : Except PyStr PVal :=
  let delta := diffs series
  if delta.isEmpty then
    .error "IndexError: single positional indexer is out-of-bounds".data
  else
    let maUp := toPVal (maUpLast series period)
    let maDown := toPVal (maDownLast series period)
    let rs := PVal.div maUp maDown
    .ok (PVal.sub (PVal.fin 100) (PVal.div (PVal.fin 100) (PVal.add (PVal.fin 1) rs)))

/-- Pandas `series.ewm(span=span, adjust=False).mean()` after the first
entry: `y_t = (1 - a) * y_(t-1) + a * x_t` with `a = 2 / (span + 1)`. -/
def ewmAux (a : ℚ) (prev : ℚ) : List ℚ → List ℚ
  | [] => []
  | x :: xs =>
    let y := (1 - a) * prev + a * x
    y :: ewmAux a y xs

/-- Pandas `series.ewm(span=span, adjust=False).mean()`: the recursive
exponential smoothing seeded with the first entry. -/
def ewmList (span : Nat) (l : List ℚ) : List ℚ :=
  match l with
  | [] => []
  | x :: xs => x :: ewmAux (2 / ((span : ℚ) + 1)) x xs

/-- `_compute_macd(series, 12, 26, 9)` of src/advanced_recommender.py: the
MACD line is the fast EMA minus the slow EMA, the signal line its 9-span
EMA; only the last entries are kept, and `.iloc[-1]` on an empty series
raises IndexError. -/
def computeMacd (series : List ℚ) : Except PyStr (ℚ × ℚ) :=
  let exp1 := ewmList 12 series
  let exp2 := ewmList 26 series
  let macdLine := List.zipWith (fun a b => a - b) exp1 exp2
  let signalLine := ewmList 9 macdLine
  match macdLine.getLast?, signalLine.getLast? with
  | some m, some sg => .ok (m, sg)
  | _, _ => .error "IndexError: single positional indexer is out-of-bounds".data

/-- Pandas `series.pct_change()`: NaN first, then `x_t / x_(t-1) - 1`.
(Exact for the positive prices the provider returns; a zero previous price,
where IEEE would produce an infinity, is outside this model's use.) -/
def pctChange (s : List ℚ) : List (Option ℚ) :=
  match s with
  | [] => []
  | _ :: _ => none :: List.zipWith (fun cur prev => some (cur / prev - 1)) (s.drop 1) s

/-- The sample variance (`ddof = 1`, pandas default) of a full window. -/
def sampleVar (xs : List ℚ) : ℚ :=
  let n := xs.length
  let m := xs.sum / (n : ℚ)
  (xs.map fun x => (x - m) ^ 2).sum / ((n : ℚ) - 1)

/-- Pandas `series.rolling(w).std().iloc[-1]` with NaNs in the series,
squared: `some` of the sample variance of the last `w` entries when the
window is full and contains no NaN, and NaN (`none`) otherwise. -/
def rollingVarLast (w : Nat) (l : List (Option ℚ)) : Option ℚ :=
  if w ≤ l.length ∧ 1 ≤ w then
    let window := l.drop (l.length - w)
    if window.all Option.isSome then some (sampleVar (window.filterMap id))
    else none
  else none

/-- `_compute_volatility(series, 20)` of src/advanced_recommender.py, up to
squaring: the code returns `std * 100`, an irrational square root, so this
model returns its square `var * 100^2`.  Squaring preserves exactly what
the claims read: whether the result is NaN, and its sign.  `.iloc[-1]` on
an empty series raises IndexError. -/
def computeVolatilitySq (series : List ℚ) : Except PyStr (Option ℚ) :=
  let pc := pctChange series
  if pc.isEmpty then
    .error "IndexError: single positional indexer is out-of-bounds".data
  else
    .ok ((rollingVarLast 20 pc).map fun v => v * 100 ^ 2)

/-! ## The orchestrator (src/agent.py)

The outcome of every external call is a field of `Env`: the yfinance
history fetch, the three Gemini invocations and the Tavily search.
`Except.error msg` stands for the call raising an exception whose text is
`msg`.  `analyze` itself returns `Except PyExc AnalyzeResult`: `Except.ok`
for a normal return and `Except.error` for a Python exception escaping to
the caller. -/

/-- A raw Tavily result dictionary: each field may be missing (`none`),
read through `article.get(key, default)`. -/
structure Article where
  title : Option PyStr
  source : Option PyStr
  url : Option PyStr
  published_date : Option PyStr
  content : Option PyStr
deriving DecidableEq, Repr

/-- A processed news dictionary as `_get_news` builds it. -/
structure NewsItem where
  title : PyStr
  source : PyStr
  url : PyStr
  published_date : PyStr
  content : PyStr
  summary : PyStr
deriving DecidableEq, Repr

/-- The outcomes of the external calls one `analyze` run can make.
`histResult` is the list of closing prices `yf.Ticker(t).history("1y")`
returns (`Except.error` = the call raised); `needNewsResp`,
`summarizeResp` and `analysisResp` are the Gemini reply texts
(`Except.error` = the invocation raised), `summarizeResp` keyed by the
article content being summarized; `newsSearch` is the Tavily result list;
`now` is `datetime.now().isoformat()`. -/
structure Env where
  histResult : Except PyStr (List ℚ)
  needNewsResp : Except PyStr PyStr
  newsSearch : Except PyStr (List Article)
  summarizeResp : PyStr → Except PyStr PyStr
  analysisResp : Except PyStr PyStr
  now : PyStr

/-- What `MarketAgent._get_stock_data` returns: the error dictionary
(`{"error": msg}`), or the data dictionary with the latest price, the two
latest SMAs (NaN while their window is not full) and the history lists. -/
inductive StockData where
  | err (msg : PyStr)
  | ok (ticker : PyStr) (current_price : ℚ) (sma_50 sma_200 : Option ℚ)
      (price_history : List ℚ)
      (sma_50_history sma_200_history : List (Option ℚ))
deriving DecidableEq, Repr

/-- What `MarketAgent._get_news` returns: `{"news": [...]}` on success,
`{"error": "News API error: ..."}` when the search raised. -/
inductive NewsData where
  | ok (news : List NewsItem)
  | err (msg : PyStr)
deriving DecidableEq, Repr

/-- What `MarketAgent._generate_analysis` returns: the analysis dictionary
(`raw`, `recommendation`, `key_points`, `targets`), or — when the model
invocation raised — the bare string `"Analysis error: ..."` in place of
the dictionary. -/
inductive AnalysisOut where
  | ok (raw : PyStr) (recommendation : PyStr) (key_points : List PyStr)
      (targets : Targets)
  | errStr (msg : PyStr)
deriving DecidableEq, Repr

/-- A Python exception escaping `analyze`: a `KeyError` from a dictionary
subscript, or an `AttributeError` from a method missing on a value. -/
inductive PyExc where
  | keyError (key : PyStr)
  | attributeError (attr : PyStr)
deriving DecidableEq, Repr

/-- The dictionary `analyze` returns normally: the early-exit error shape
`{**stock_data, "reasoning": ...}` or the full result record. -/
inductive AnalyzeResult where
  | errorResult (error : PyStr) (reasoning : List PyStr)
  | fullResult (ticker : PyStr) (price : ℚ) (sma_50 sma_200 : Option ℚ)
      (news : List NewsItem) (analysisRaw : PyStr)
      (analysisRecommendation : PyStr) (analysisKeyPoints : List PyStr)
      (analysisTargets : Targets) (timestamp : PyStr)
      (price_history : List ℚ)
      (sma_50_history sma_200_history : List (Option ℚ))
      (reasoning : List PyStr)
deriving DecidableEq, Repr

/-- The `"reasoning"` entry of the returned dictionary (both shapes carry
one). -/
def AnalyzeResult.reasoningLog : AnalyzeResult → List PyStr
  | .errorResult _ r => r
  | .fullResult _ _ _ _ _ _ _ _ _ _ _ _ _ r => r

/-- Decimal digits of a natural number, as Python renders `{n}`. -/
def natToChars (n : Nat) : PyStr :=
  Nat.toDigits 10 n

/-- Rounding to the nearest integer, ties to even, as Python `format`
rounds a decimal fraction. -/
def roundHalfEven (q : ℚ) : ℤ :=
  let f := Rat.floor q
  let r := q - f
  if r < 1/2 then f else if 1/2 < r then f + 1 else if f % 2 = 0 then f else f + 1

/-- Python `f"{x:.2f}"` on the embedded floats: `"nan"` for NaN, otherwise
the value rounded to two decimals.  (The model rounds the exact rational;
Python formats the nearest double, which agrees on the values the agent
prints.  The sign of a negative zero is not modelled.) -/
def fmt2f : Option ℚ → PyStr
  | none => "nan".data
  | some q =>
    let c := roundHalfEven (q * 100)
    let a := c.natAbs
    (if c < 0 then ['-'] else []) ++ natToChars (a / 100) ++ ['.'] ++
      (if a % 100 < 10 then '0' :: natToChars (a % 100) else natToChars (a % 100))

/-- `MarketAgent._summarize_article`: empty text short-circuits, otherwise
the Gemini summary (stripped), and `"Summary error: ..."` when the
invocation raised. -/
def summarize_article (env : Env) (text : PyStr) : PyStr :=
  if text.isEmpty then "No summary available".data
  else
    match env.summarizeResp text with
    | .ok r => pyStrip r
    | .error e => "Summary error: ".data ++ e

/-- `MarketAgent._get_stock_data`: a raised fetch becomes
`{"error": "Stock data error: ..."}`, an empty history becomes
`{"error": "No historical data found for ..."}`, otherwise the data
dictionary (SMAs over 50 and 200 days, NaN while the window is not
full). -/
def get_stock_data (env : Env) (ticker : PyStr) : StockData :=
  match env.histResult with
  | .error e => .err ("Stock data error: ".data ++ e)
  | .ok closes =>
    if closes.isEmpty then .err ("No historical data found for ".data ++ ticker)
    else
      .ok ticker (closes.getLastD 0)
        (rollingMeanLast closes 50) (rollingMeanLast closes 200)
        closes (rollingMeans 50 closes) (rollingMeans 200 closes)

/-- `MarketAgent._get_news`: the top three search results processed into
news dictionaries (missing fields defaulted, content summarized), and
`{"error": "News API error: ..."}` when the search raised. -/
def get_news (env : Env) (ticker : PyStr) : NewsData :=
  match env.newsSearch with
  | .error e => .err ("News API error: ".data ++ e)
  | .ok results =>
    .ok ((results.take 3).map fun a =>
      { title := a.title.getD "Untitled Article".data
        source := a.source.getD "Unknown".data
        url := a.url.getD []
        published_date := a.published_date.getD "Date not available".data
        content := a.content.getD []
        summary := summarize_article env (a.content.getD []) })

/-- `MarketAgent._generate_analysis` (the prompt-only parameters are kept
for shape): the parsed analysis dictionary, or the bare string
`"Analysis error: ..."` when the model invocation raised. -/
def generate_analysis (env : Env) (ticker : PyStr) (price : ℚ)
    (sma50 sma200 : Option ℚ) (news_items : List NewsItem) : AnalysisOut :=
  match env.analysisResp with
  | .ok text =>
    .ok text (extractRecommendation text) (extractBulletPoints text)
      (extractPriceTargets text)
  | .error e => .errStr ("Analysis error: ".data ++ e)

/-- `MarketAgent._decide_need_news`: the reply text stripped and lowered
must start with `"yes"`; a raised invocation defaults to `True`. -/
def decide_need_news (resp : Except PyStr PyStr) : Bool :=
  match resp with
  | .ok t => pyStartsWith (pyLower (pyStrip t)) "yes".data
  | .error _ => true

/-- `MarketAgent.analyze`: the end-to-end pipeline with its reasoning log,
step for step as the source writes it.  Dictionary subscripts on the wrong
shape raise: `news_data["news"]` on the news error dictionary is a
`KeyError`, and `analysis.get(...)` on the `"Analysis error: ..."` string
is an `AttributeError`. -/
def analyze (env : Env) (ticker : PyStr) : Except PyExc AnalyzeResult :=
  let reasoning1 := ["Step 1: Fetching 1y history for ".data ++ ticker]
  match get_stock_data env ticker with
  | .err msg => .ok (.errorResult msg reasoning1)
  | .ok _tk price sma50 sma200 ph s50h s200h =>
    let reasoning2 := reasoning1 ++
      ["  → Got price $".data ++ fmt2f (some price) ++ ", SMA50 $".data ++
        fmt2f sma50 ++ ", SMA200 $".data ++ fmt2f sma200,
       "Step 2: SMAs computed".data,
       "Step 3: Asking Gemini if news is needed".data]
    let need_news := decide_need_news env.needNewsResp
    let reasoning3 := reasoning2 ++
      ["  → Gemini says: ".data ++ (if need_news then "Yes".data else "No".data)]
    let step4 :=
      if need_news then
        let nd := get_news env ticker
        let count := match nd with | .ok l => l.length | .err _ => 0
        (nd, reasoning3 ++
          ["Step 4: Fetching top-3 news articles".data,
           "  → Received ".data ++ natToChars count ++ " articles".data])
      else
        (NewsData.ok [], reasoning3 ++ ["Step 4: Skipping news fetch".data])
    let reasoning5 := step4.2 ++ ["Step 5: Generating recommendation with Gemini".data]
    match step4.1 with
    | .err _ => .error (.keyError "news".data)
    | .ok newsList =>
      match generate_analysis env ticker price sma50 sma200 newsList with
      | .errStr _ => .error (.attributeError "get".data)
      | .ok raw rec kps tgts =>
        let reasoning6 := reasoning5 ++ ["  → Recommendation: ".data ++ rec]
        .ok (.fullResult ticker price sma50 sma200 newsList raw rec kps tgts
          env.now ph s50h s200h reasoning6)

/-- Stated from the spec for claim C8: the reply text, after trimming,
starts with `"yes"` case-insensitively — the first three characters,
compared one by one with case folded. -/
def ciStartsWithYes : PyStr → Bool
  | c1 :: c2 :: c3 :: _ => c1.toLower == 'y' && c2.toLower == 'e' && c3.toLower == 's'
  | _ => false

/-! ## Theorems -/

theorem extractRecommendationGo_default (lines : List PyStr)
    (h : ∀ line ∈ lines, containsSub "recommendation:".data (pyLower line) = false) :
    extractRecommendationGo lines = "Hold".data := by
  induction lines with
  | nil => rfl
  | cons line rest ih =>
    have h1 : containsSub "recommendation:".data (pyLower line) = false :=
      h line (List.mem_cons_self line rest)
    simp only [extractRecommendationGo, h1, Bool.false_eq_true, if_false]
    exact ih fun l hl => h l (List.mem_cons_of_mem _ hl)

theorem extractBulletPointsGo_no_marker (lines : List PyStr) (acc : List PyStr)
    (h : ∀ line ∈ lines, containsSub "reasons:".data (pyLower line) = false) :
    extractBulletPointsGo lines false acc = acc := by
  induction lines generalizing acc with
  | nil => rfl
  | cons line rest ih =>
    have h1 : containsSub "reasons:".data (pyLower line) = false :=
      h line (List.mem_cons_self line rest)
    simp only [extractBulletPointsGo, h1, Bool.false_eq_true, if_false,
      Bool.false_and]
    split
    · rfl
    · exact ih acc fun l hl => h l (List.mem_cons_of_mem _ hl)

theorem extractPriceTargetsGo_no_marker (lines : List PyStr) (t : Targets)
    (h : ∀ line ∈ lines, containsSub "conservative:".data (pyLower line) = false ∧
      containsSub "aggressive:".data (pyLower line) = false) :
    extractPriceTargetsGo lines t = t := by
  induction lines generalizing t with
  | nil => rfl
  | cons line rest ih =>
    have h1 := h line (List.mem_cons_self line rest)
    simp only [extractPriceTargetsGo, h1.1, h1.2, Bool.false_eq_true, if_false]
    exact ih t fun l hl => h l (List.mem_cons_of_mem _ hl)

/-- C4: on the well-formed template reply, the parser extracts exactly
recommendation `"Buy"`, the three key points `["A", "B", "C"]`, and the
price targets conservative `"100"` and aggressive `"150"` (as strings). -/
theorem wellformed_reply_parses_exactly :
    extractRecommendation ("Recommendation: Buy\nReasons:\n- A\n- B\n- C\nTargets:\n- Conservative: $100\n- Aggressive: $150").data
      = "Buy".data ∧
    extractBulletPoints ("Recommendation: Buy\nReasons:\n- A\n- B\n- C\nTargets:\n- Conservative: $100\n- Aggressive: $150").data
      = ["A".data, "B".data, "C".data] ∧
    extractPriceTargets ("Recommendation: Buy\nReasons:\n- A\n- B\n- C\nTargets:\n- Conservative: $100\n- Aggressive: $150").data
      = Targets.mk (some "100".data) (some "150".data) := by
  refine ⟨by decide, by decide, by decide⟩

/-- C5: a reply none of whose lines contains a marker
(`"recommendation:"`, `"reasons:"`, `"conservative:"`, `"aggressive:"` in
any casing, which the code tests by lowering the line) parses to the
defaults: recommendation `"Hold"`, no key points, both targets `None`;
the parser is a total function, so no exception is possible. -/
theorem malformed_reply_yields_defaults (text : PyStr)
    (h : ∀ line ∈ splitOnChar lfChar text,
      containsSub "recommendation:".data (pyLower line) = false ∧
      containsSub "reasons:".data (pyLower line) = false ∧
      containsSub "conservative:".data (pyLower line) = false ∧
      containsSub "aggressive:".data (pyLower line) = false) :
    extractRecommendation text = "Hold".data ∧
    extractBulletPoints text = [] ∧
    extractPriceTargets text = Targets.mk none none := by
  refine ⟨?_, ?_, ?_⟩
  · exact extractRecommendationGo_default _ fun l hl => (h l hl).1
  · exact extractBulletPointsGo_no_marker _ _ fun l hl => (h l hl).2.1
  · exact extractPriceTargetsGo_no_marker _ _ fun l hl =>
      ⟨(h l hl).2.2.1, (h l hl).2.2.2⟩

/-- Witness for C5 at the concrete marker-free reply "hello\nworld". -/
theorem malformed_reply_yields_defaults_witness :
    extractRecommendation "hello\nworld".data = "Hold".data ∧
    extractBulletPoints "hello\nworld".data = [] ∧
    extractPriceTargets "hello\nworld".data = Targets.mk none none :=
  malformed_reply_yields_defaults "hello\nworld".data (by decide)

theorem extractBulletPointsGo_mem (lines : List PyStr) (b : Bool)
    (acc : List PyStr) (p : PyStr)
    (hp : p ∈ extractBulletPointsGo lines b acc) :
    p ∈ acc ∨ ∃ line, line ∈ lines ∧ pyStartsWith (pyStrip line) "-".data = true ∧
      p = (pyStrip line).drop 2 := by
  induction lines generalizing b acc with
  | nil => exact Or.inl hp
  | cons line rest ih =>
    by_cases h1 : containsSub "reasons:".data (pyLower line) = true
    · rw [extractBulletPointsGo, if_pos h1] at hp
      rcases ih true acc hp with hin | ⟨l, hl, hd, hq⟩
      · exact Or.inl hin
      · exact Or.inr ⟨l, List.mem_cons_of_mem _ hl, hd, hq⟩
    · rw [extractBulletPointsGo, if_neg h1] at hp
      by_cases h2 : (b && pyStartsWith (pyStrip line) "-".data) = true
      · rw [if_pos h2] at hp
        have hdash : pyStartsWith (pyStrip line) "-".data = true :=
          (Bool.and_eq_true_iff.mp h2).2
        dsimp only at hp
        split at hp
        · rcases List.mem_append.mp hp with hin | hnew
          · exact Or.inl hin
          · exact Or.inr ⟨line, List.mem_cons_self line rest, hdash,
              List.mem_singleton.mp hnew⟩
        · rcases ih b _ hp with hin | ⟨l, hl, hd, hq⟩
          · rcases List.mem_append.mp hin with hin' | hnew
            · exact Or.inl hin'
            · exact Or.inr ⟨line, List.mem_cons_self line rest, hdash,
                List.mem_singleton.mp hnew⟩
          · exact Or.inr ⟨l, List.mem_cons_of_mem _ hl, hd, hq⟩
      · rw [if_neg h2] at hp
        dsimp only at hp
        split at hp
        · exact Or.inl hp
        · rcases ih b acc hp with hin | ⟨l, hl, hd, hq⟩
          · exact Or.inl hin
          · exact Or.inr ⟨l, List.mem_cons_of_mem _ hl, hd, hq⟩

/-- C9: bullet-point extraction does not stop at the `"Targets:"` section —
every returned point comes from some dash-prefixed stripped line of the
reply with its first two characters removed (so a bare `"-"` yields the
empty string), and on a reply with one reason followed by a targets
section, the target line and the bare dash are returned as key points. -/
theorem bullet_points_cross_targets_section :
    (∀ text p, p ∈ extractBulletPoints text →
      ∃ line, line ∈ splitOnChar lfChar text ∧
        pyStartsWith (pyStrip line) "-".data = true ∧
        p = (pyStrip line).drop 2) ∧
    extractBulletPoints ("Recommendation: Buy\nReasons:\n- A\nTargets:\n- Conservative: $100\n-").data
      = ["A".data, "Conservative: $100".data, []] := by
  constructor
  · intro text p hp
    rcases extractBulletPointsGo_mem _ false [] p hp with hin | hex
    · cases hin
    · exact hex
  · decide

theorem pyStartsWith_lower_yes (s : PyStr) :
    pyStartsWith (pyLower s) "yes".data = ciStartsWithYes s := by
  have hys : "yes".data = ['y', 'e', 's'] := by decide
  match s with
  | [] => rfl
  | [c1] => simp [pyLower, pyStartsWith, ciStartsWithYes, hys]
  | [c1, c2] => simp [pyLower, pyStartsWith, ciStartsWithYes, hys]
  | c1 :: c2 :: c3 :: rest =>
    simp [pyLower, pyStartsWith, ciStartsWithYes, hys, Bool.and_assoc]

/-- C8: the decide-on-news step returns `True` exactly when the model's
reply text, after trimming, starts with `"yes"` case-insensitively, and a
raised model invocation defaults to `True` (fetch news). -/
theorem decide_need_news_yes_or_default :
    (∀ t, decide_need_news (Except.ok t) = ciStartsWithYes (pyStrip t)) ∧
    (∀ e, decide_need_news (Except.error e) = true) := by
  constructor
  · intro t
    show pyStartsWith (pyLower (pyStrip t)) "yes".data = ciStartsWithYes (pyStrip t)
    exact pyStartsWith_lower_yes (pyStrip t)
  · intro e
    rfl

theorem diffs_length (s : List ℚ) : (diffs s).length = s.length - 1 := by
  simp [diffs, List.length_zipWith]

theorem rollingMeanLast_nonneg (l : List ℚ) (w : Nat)
    (hl : ∀ x ∈ l, 0 ≤ x) (q : ℚ) (h : rollingMeanLast l w = some q) : 0 ≤ q := by
  unfold rollingMeanLast at h
  split at h
  · have hq : ((l.drop (l.length - w)).sum / (w : ℚ)) = q := by
      injection h
    rw [← hq]
    apply div_nonneg
    · exact List.sum_nonneg fun x hx => hl x (List.mem_of_mem_drop hx)
    · exact_mod_cast Nat.zero_le w
  · cases h

theorem upSeries_nonneg (s : List ℚ) : ∀ x ∈ upSeries s, 0 ≤ x := by
  intro x hx
  rcases List.mem_map.mp hx with ⟨d, _, rfl⟩
  exact le_max_right d 0

theorem downSeries_nonneg (s : List ℚ) : ∀ x ∈ downSeries s, 0 ≤ x := by
  intro x hx
  rcases List.mem_map.mp hx with ⟨d, _, rfl⟩
  exact neg_nonneg.mpr (min_le_right d 0)

theorem maUpLast_some (s : List ℚ) (h : 15 ≤ s.length) :
    ∃ u, maUpLast s 14 = some u ∧ 0 ≤ u := by
  have hlen : 14 ≤ (upSeries s).length := by
    simp only [upSeries, List.length_map, diffs_length]
    omega
  unfold maUpLast rollingMeanLast
  rw [if_pos ⟨hlen, by norm_num⟩]
  refine ⟨_, rfl, ?_⟩
  apply div_nonneg
  · exact List.sum_nonneg fun x hx =>
      upSeries_nonneg s x (List.mem_of_mem_drop hx)
  · norm_num

theorem maDownLast_some (s : List ℚ) (h : 15 ≤ s.length) :
    ∃ d, maDownLast s 14 = some d ∧ 0 ≤ d := by
  have hlen : 14 ≤ (downSeries s).length := by
    simp only [downSeries, List.length_map, diffs_length]
    omega
  unfold maDownLast rollingMeanLast
  rw [if_pos ⟨hlen, by norm_num⟩]
  refine ⟨_, rfl, ?_⟩
  apply div_nonneg
  · exact List.sum_nonneg fun x hx =>
      downSeries_nonneg s x (List.mem_of_mem_drop hx)
  · norm_num

theorem diffs_isEmpty_false (s : List ℚ) (h : 2 ≤ s.length) :
    (diffs s).isEmpty = false := by
  have : (diffs s).length = s.length - 1 := diffs_length s
  cases hd : diffs s with
  | nil => rw [hd] at this; simp at this; omega
  | cons a l => rfl

/-- C6 (amended): for a price series of sufficient length (at least
period + 1 = 15 points) the RSI computation never raises and never
returns an infinity; whenever it returns a finite value that value lies
in [0, 100]; when the trailing average loss is zero and the average gain
is positive it returns exactly 100; but when average loss and average
gain are both zero (a flat window) it returns NaN, not 100. -/
theorem rsi_range_and_zero_loss_boundary (s : List ℚ) (h : 15 ≤ s.length) :
    ∃ u d, maUpLast s 14 = some u ∧ maDownLast s 14 = some d ∧
      (d = 0 → u ≠ 0 → computeRsi s 14 = .ok (PVal.fin 100)) ∧
      (d = 0 → u = 0 → computeRsi s 14 = .ok PVal.nan) ∧
      (d ≠ 0 → ∃ x, computeRsi s 14 = .ok (PVal.fin x) ∧ 0 ≤ x ∧ x ≤ 100) := by
  obtain ⟨u, hu, hu0⟩ := maUpLast_some s h
  obtain ⟨d, hd, hd0⟩ := maDownLast_some s h
  have hne : (diffs s).isEmpty = false := diffs_isEmpty_false s (by omega)
  have hrsi : computeRsi s 14 = .ok (PVal.sub (PVal.fin 100)
      (PVal.div (PVal.fin 100)
        (PVal.add (PVal.fin 1) (PVal.div (PVal.fin u) (PVal.fin d))))) := by
    simp only [computeRsi, hne, Bool.false_eq_true, if_false, hu, hd, toPVal]
  refine ⟨u, d, hu, hd, ?_, ?_, ?_⟩
  · intro hdz huz
    subst hdz
    have hupos : 0 < u := lt_of_le_of_ne hu0 (Ne.symm huz)
    rw [hrsi]
    simp [PVal.div, PVal.add, PVal.sub, huz, hupos]
  · intro hdz huz
    subst hdz
    subst huz
    rw [hrsi]
    simp [PVal.div, PVal.add, PVal.sub]
  · intro hdz
    have hdpos : 0 < d := lt_of_le_of_ne hd0 (Ne.symm hdz)
    have hud : 0 ≤ u / d := div_nonneg hu0 hdpos.le
    have h1 : (0 : ℚ) < 1 + u / d := by linarith
    refine ⟨100 - 100 / (1 + u / d), ?_, ?_, ?_⟩
    · rw [hrsi]
      simp [PVal.div, PVal.add, PVal.sub, hdz, h1.ne']
    · have hle : 100 / (1 + u / d) ≤ 100 := by
        apply div_le_self (by norm_num) (by linarith)
      linarith
    · have hge : 0 ≤ 100 / (1 + u / d) := by positivity
      linarith

/-- Counterexample for C6 as stated: on a flat 15-point series the
trailing average loss is zero, yet the RSI is NaN — an undefined value,
not 100 and not inside [0, 100]. -/
theorem rsi_flat_series_not_100 :
    computeRsi (List.replicate 15 (100 : ℚ)) 14 = .ok PVal.nan ∧
    maDownLast (List.replicate 15 (100 : ℚ)) 14 = some 0 ∧
    PVal.nan ≠ PVal.fin 100 :=
  ⟨by with_unfolding_all rfl, by with_unfolding_all rfl, by decide⟩

/-- Witness for C6 at a strictly increasing 15-point series (average loss
zero, average gain positive: the RSI saturates at 100). -/
theorem rsi_range_witness :
    ∃ u d, maUpLast ((List.range 15).map fun i => (i : ℚ)) 14 = some u ∧
      maDownLast ((List.range 15).map fun i => (i : ℚ)) 14 = some d ∧
      (d = 0 → u ≠ 0 →
        computeRsi ((List.range 15).map fun i => (i : ℚ)) 14 = .ok (PVal.fin 100)) ∧
      (d = 0 → u = 0 →
        computeRsi ((List.range 15).map fun i => (i : ℚ)) 14 = .ok PVal.nan) ∧
      (d ≠ 0 → ∃ x, computeRsi ((List.range 15).map fun i => (i : ℚ)) 14
        = .ok (PVal.fin x) ∧ 0 ≤ x ∧ x ≤ 100) :=
  rsi_range_and_zero_loss_boundary ((List.range 15).map fun i => (i : ℚ)) (by decide)

theorem ewmAux_length (a p : ℚ) (l : List ℚ) : (ewmAux a p l).length = l.length := by
  induction l generalizing p with
  | nil => rfl
  | cons x xs ih => simp [ewmAux, ih]

theorem ewmList_length (sp : Nat) (l : List ℚ) : (ewmList sp l).length = l.length := by
  cases l with
  | nil => rfl
  | cons x xs => simp [ewmList, ewmAux_length]

theorem computeMacd_ok (s : List ℚ) (hs : s ≠ []) :
    ∃ m sg, computeMacd s = .ok (m, sg) := by
  have hlen : 0 < s.length := List.length_pos.mpr hs
  have hml : (List.zipWith (fun a b => a - b) (ewmList 12 s) (ewmList 26 s)).length
      = s.length := by
    simp [List.length_zipWith, ewmList_length]
  have hmne : List.zipWith (fun a b => a - b) (ewmList 12 s) (ewmList 26 s) ≠ [] := by
    rw [← List.length_pos, hml]
    exact hlen
  have hsne : ewmList 9 (List.zipWith (fun a b => a - b) (ewmList 12 s) (ewmList 26 s))
      ≠ [] := by
    rw [← List.length_pos, ewmList_length, hml]
    exact hlen
  obtain ⟨m, hm⟩ := Option.isSome_iff_exists.mp (List.getLast?_isSome.mpr hmne)
  obtain ⟨sg, hsg⟩ := Option.isSome_iff_exists.mp (List.getLast?_isSome.mpr hsne)
  refine ⟨m, sg, ?_⟩
  simp only [computeMacd, hm, hsg]

theorem computeRsi_short (s : List ℚ) (h2 : 2 ≤ s.length) (h15 : s.length < 15) :
    computeRsi s 14 = .ok PVal.nan := by
  have hne := diffs_isEmpty_false s h2
  have hup : maUpLast s 14 = none := by
    unfold maUpLast rollingMeanLast
    rw [if_neg]
    rintro ⟨hle, -⟩
    simp only [upSeries, List.length_map, diffs_length] at hle
    omega
  have hdown : maDownLast s 14 = none := by
    unfold maDownLast rollingMeanLast
    rw [if_neg]
    rintro ⟨hle, -⟩
    simp only [downSeries, List.length_map, diffs_length] at hle
    omega
  simp only [computeRsi, hne, Bool.false_eq_true, if_false, hup, hdown, toPVal]
  rfl

theorem computeVolatilitySq_short (s : List ℚ) (hs : s ≠ []) (h : s.length < 21) :
    computeVolatilitySq s = .ok none := by
  cases s with
  | nil => cases hs rfl
  | cons x xs =>
    have hlen : (pctChange (x :: xs)).length = xs.length + 1 := by
      simp [pctChange, List.length_zipWith]
    have hrv : rollingVarLast 20 (pctChange (x :: xs)) = none := by
      unfold rollingVarLast
      by_cases hc : 20 ≤ (pctChange (x :: xs)).length ∧ 1 ≤ 20
      · rw [if_pos hc]
        have h20 : (pctChange (x :: xs)).length = 20 := by
          rw [hlen]
          simp only [List.length_cons] at h
          rcases hc with ⟨hc1, -⟩
          rw [hlen] at hc1
          omega
        rw [h20]
        dsimp only
        rw [Nat.sub_self, List.drop_zero]
        have hall : (pctChange (x :: xs)).all Option.isSome = false := by
          simp [pctChange, List.all_cons, Option.isSome]
        rw [hall]
        rfl
      · rw [if_neg hc]
    have hpcne : (pctChange (x :: xs)).isEmpty = false := rfl
    simp only [computeVolatilitySq, hpcne, Bool.false_eq_true, if_false, hrv,
      Option.map_none']

/-- C7 (amended): for a series with at least 200 points both SMA50 and
SMA200 are defined; but for a series shorter than the window the
indicator computations never signal an insufficient-history error — on a
non-empty series shorter than the window the rolling mean (SMA)
completes normally and silently returns NaN; the RSI completes normally
and silently returns NaN on a series of 2 to 14 points and raises
IndexError (from `iloc[-1]` on an empty difference series, still not an
insufficient-history signal) on a series of fewer than 2 points; the
MACD returns finite values for any non-empty series however short and
raises IndexError on the empty series; and the 20-day volatility
completes normally returning NaN for any non-empty series shorter than
21 points and raises IndexError on the empty series. -/
theorem indicators_short_series_silent_nan :
    (∀ closes : List ℚ, 200 ≤ closes.length →
      (rollingMeanLast closes 50).isSome = true ∧
      (rollingMeanLast closes 200).isSome = true) ∧
    (∀ (closes : List ℚ) (w : Nat), closes ≠ [] → 1 ≤ w → closes.length < w →
      rollingMeanLast closes w = none) ∧
    (∀ s : List ℚ, 2 ≤ s.length → s.length < 15 → computeRsi s 14 = .ok PVal.nan) ∧
    (∀ s : List ℚ, s.length < 2 → ∃ e, computeRsi s 14 = .error e) ∧
    (∀ s : List ℚ, s ≠ [] → ∃ m sg, computeMacd s = .ok (m, sg)) ∧
    (∃ e, computeMacd ([] : List ℚ) = .error e) ∧
    (∀ s : List ℚ, s ≠ [] → s.length < 21 → computeVolatilitySq s = .ok none) ∧
    (∃ e, computeVolatilitySq ([] : List ℚ) = .error e) := by
  refine ⟨?_, ?_, computeRsi_short, ?_, computeMacd_ok, ⟨_, rfl⟩,
    computeVolatilitySq_short, ⟨_, rfl⟩⟩
  · intro closes h
    constructor
    · unfold rollingMeanLast
      rw [if_pos ⟨by omega, by norm_num⟩]
      rfl
    · unfold rollingMeanLast
      rw [if_pos ⟨by omega, by norm_num⟩]
      rfl
  · intro closes w hne h1 hlt
    unfold rollingMeanLast
    rw [if_neg]
    rintro ⟨hle, -⟩
    omega
  · intro s h
    cases s with
    | nil => exact ⟨_, rfl⟩
    | cons a t =>
      cases t with
      | nil => exact ⟨_, rfl⟩
      | cons b t2 =>
        simp only [List.length_cons] at h
        omega

/-- Counterexample for C7 as stated: on concrete series shorter than the
window each indicator completes normally — the SMA and the RSI return
NaN, the MACD returns finite values — and no insufficient-history error
is signalled. -/
theorem indicators_short_series_counterexample :
    rollingMeanLast [(1 : ℚ), 2, 3] 50 = none ∧
    computeRsi [(1 : ℚ), 2, 3, 4, 5] 14 = .ok PVal.nan ∧
    computeMacd [(1 : ℚ), 2] = .ok (28 / 351, 28 / 1755) ∧
    computeVolatilitySq [(1 : ℚ), 2, 3] = .ok none :=
  ⟨by with_unfolding_all rfl, by with_unfolding_all rfl,
   by with_unfolding_all rfl, by with_unfolding_all rfl⟩

/-- Witness for C7: the defined-SMA half at a 200-point series, the
silent-NaN halves at concrete non-empty short series, and the IndexError
cases at a one-point and at the empty series. -/
theorem indicators_short_series_witness :
    ((rollingMeanLast (List.replicate 200 (1 : ℚ)) 50).isSome = true ∧
      (rollingMeanLast (List.replicate 200 (1 : ℚ)) 200).isSome = true) ∧
    rollingMeanLast [(1 : ℚ), 2] 50 = none ∧
    computeRsi [(1 : ℚ), 2, 3] 14 = .ok PVal.nan ∧
    (∃ e, computeRsi [(1 : ℚ)] 14 = .error e) ∧
    (∃ m sg, computeMacd [(1 : ℚ), 2, 3] = .ok (m, sg)) ∧
    (∃ e, computeMacd ([] : List ℚ) = .error e) ∧
    computeVolatilitySq [(1 : ℚ), 2] = .ok none ∧
    (∃ e, computeVolatilitySq ([] : List ℚ) = .error e) :=
  ⟨indicators_short_series_silent_nan.1 _ (by simp),
   indicators_short_series_silent_nan.2.1 _ _ (by decide) (by decide) (by decide),
   indicators_short_series_silent_nan.2.2.1 _ (by decide) (by decide),
   indicators_short_series_silent_nan.2.2.2.1 _ (by decide),
   indicators_short_series_silent_nan.2.2.2.2.1 _ (by decide),
   indicators_short_series_silent_nan.2.2.2.2.2.1,
   indicators_short_series_silent_nan.2.2.2.2.2.2.1 _ (by decide) (by decide),
   indicators_short_series_silent_nan.2.2.2.2.2.2.2⟩

/-- C3: when the one-year price history comes back empty, `analyze`
returns the error-tagged result carrying the ticker immediately, with only
the fetch step logged; the result is the same whatever the language-model
and search providers would have answered (the environment is universally
quantified), so neither provider is consulted on this path. -/
theorem analyze_empty_history_early_exit (env : Env) (t : PyStr)
    (h : env.histResult = Except.ok []) :
    analyze env t = .ok (.errorResult ("No historical data found for ".data ++ t)
      ["Step 1: Fetching 1y history for ".data ++ t]) := by
  unfold analyze get_stock_data
  rw [h]
  rfl

/-- Witness for C3 at a concrete environment whose history fetch returns
an empty series (and whose other providers would raise or answer). -/
theorem analyze_empty_history_early_exit_witness :
    analyze
      (Env.mk (.ok []) (.ok "Yes".data) (.error "down".data) (fun _ => .ok [])
        (.ok []) [])
      "XYZ".data
      = .ok (.errorResult ("No historical data found for ".data ++ "XYZ".data)
        ["Step 1: Fetching 1y history for ".data ++ "XYZ".data]) :=
  analyze_empty_history_early_exit _ _ rfl

/-- C10: every dictionary `analyze` returns normally — the early-exit
error result included — carries a reasoning log whose first entry is the
fetch step description for the requested ticker. -/
theorem analyze_reasoning_starts_with_fetch (env : Env) (t : PyStr)
    (r : AnalyzeResult) (h : analyze env t = .ok r) :
    ∃ rest, r.reasoningLog = ("Step 1: Fetching 1y history for ".data ++ t) :: rest := by
  unfold analyze at h
  cases hsd : get_stock_data env t with
  | err msg =>
    rw [hsd] at h
    obtain rfl : AnalyzeResult.errorResult msg
        ["Step 1: Fetching 1y history for ".data ++ t] = r := Except.ok.inj h
    exact ⟨[], rfl⟩
  | ok tk price s50 s200 ph h50 h200 =>
    rw [hsd] at h
    dsimp only at h
    cases hn : decide_need_news env.needNewsResp with
    | true =>
      rw [hn] at h
      simp only [if_true] at h
      cases hgn : get_news env t with
      | err e =>
        rw [hgn] at h
        dsimp only at h
        exact Except.noConfusion h
      | ok lst =>
        rw [hgn] at h
        dsimp only at h
        cases hga : generate_analysis env t price s50 s200 lst with
        | errStr e =>
          rw [hga] at h
          dsimp only at h
          exact Except.noConfusion h
        | ok raw rec kps tgts =>
          rw [hga] at h
          dsimp only at h
          obtain rfl := Except.ok.inj h
          exact ⟨_, rfl⟩
    | false =>
      rw [hn] at h
      simp only [Bool.false_eq_true, if_false] at h
      cases hga : generate_analysis env t price s50 s200 [] with
      | errStr e =>
        rw [hga] at h
        dsimp only at h
        exact Except.noConfusion h
      | ok raw rec kps tgts =>
        rw [hga] at h
        dsimp only at h
        obtain rfl := Except.ok.inj h
        exact ⟨_, rfl⟩

/-- Witness for C10 at a concrete environment (empty history, so the
early-exit result): its reasoning log holds exactly the fetch step. -/
theorem analyze_reasoning_starts_with_fetch_witness :
    ∃ rest, (AnalyzeResult.errorResult
        ("No historical data found for ".data ++ "IBM".data)
        ["Step 1: Fetching 1y history for ".data ++ "IBM".data]).reasoningLog
      = ("Step 1: Fetching 1y history for ".data ++ "IBM".data) :: rest :=
  analyze_reasoning_starts_with_fetch
    (Env.mk (.ok []) (.ok "Yes".data) (.error "down".data) (fun _ => .ok [])
      (.ok []) [])
    "IBM".data _ (by with_unfolding_all rfl)

/-- C1 (what the code actually does): when the news search raises,
`_get_news` does catch the exception and returns the error-marker
dictionary — but `analyze` then subscripts that dictionary with
`news_data["news"]`, a key it does not have, so a `KeyError` escapes the
orchestrator instead of a returned result with an empty news list. -/
theorem news_failure_raises_keyerror :
    get_news
        (Env.mk (.ok [(10 : ℚ), 11]) (.ok "Yes".data) (.error "boom".data)
          (fun _ => .ok []) (.ok []) [])
        "AAPL".data
      = .err ("News API error: boom").data ∧
    analyze
        (Env.mk (.ok [(10 : ℚ), 11]) (.ok "Yes".data) (.error "boom".data)
          (fun _ => .ok []) (.ok []) [])
        "AAPL".data
      = .error (.keyError "news".data) :=
  ⟨by with_unfolding_all rfl, by with_unfolding_all rfl⟩

/-- C2 (what the code actually does): when the narrative model call
raises, `_generate_analysis` does catch the exception and returns the
string `"Analysis error: ..."` in place of the analysis dictionary — but
`analyze` then calls `.get` on that string, so an `AttributeError`
escapes the orchestrator instead of a returned result object. -/
theorem narrative_failure_raises_attributeerror :
    generate_analysis
        (Env.mk (.ok [(10 : ℚ), 11]) (.ok "No".data) (.ok [])
          (fun _ => .ok []) (.error "LLM down".data) [])
        "MSFT".data 11 none none []
      = .errStr ("Analysis error: LLM down").data ∧
    analyze
        (Env.mk (.ok [(10 : ℚ), 11]) (.ok "No".data) (.ok [])
          (fun _ => .ok []) (.error "LLM down".data) [])
        "MSFT".data
      = .error (.attributeError "get".data) :=
  ⟨by with_unfolding_all rfl, by with_unfolding_all rfl⟩
